import Mathlib

/-!
Verification development for the manifest.app vase scene.

The development shallowly embeds three parts of the source:

* the camera focus and reset animator
  (src/vase-app/src/components/camera/CameraResetAnimator.jsx),
* the shatter/explosion engine hosted by the VaseModel component
  (src/unnamed/part_003),
* the interaction and lock-state coordinator (src/vase-app/src/App.jsx).

Numbers are modelled as exact rationals.  Where the source takes a Euclidean
length (a square root), the embedding receives the length as an oracle
argument; theorems that depend on its value carry the defining side condition
as an explicit hypothesis or conjunct.  Randomness (Math.random draws) is
supplied as an oracle of already-sampled values.
-/

namespace ManifestApp

/-- Vec3 mirrors the THREE.Vector3 triples used throughout the source. -/
structure Vec3 where
  x : ℚ
  y : ℚ
  z : ℚ
deriving DecidableEq, Repr

/-- Componentwise sum, as in THREE.Vector3.add. -/
def vadd (a b : Vec3) : Vec3 := ⟨a.x + b.x, a.y + b.y, a.z + b.z⟩

/-- Componentwise difference, as in THREE.Vector3.sub. -/
def vsub (a b : Vec3) : Vec3 := ⟨a.x - b.x, a.y - b.y, a.z - b.z⟩

/-- Squared Euclidean norm of a vector. -/
def vlen2 (v : Vec3) : ℚ := v.x * v.x + v.y * v.y + v.z * v.z

/-- Embedding of THREE.Vector3.lerpVectors: a + (b - a) * k componentwise. -/
def lerpVectors (a b : Vec3) (k : ℚ) : Vec3 :=
  ⟨a.x + (b.x - a.x) * k, a.y + (b.y - a.y) * k, a.z + (b.z - a.z) * k⟩

/-- Embedding of THREE.Vector3.distanceToSquared. -/
def distanceToSquared (a b : Vec3) : ℚ :=
  (a.x - b.x) ^ 2 + (a.y - b.y) ^ 2 + (a.z - b.z) ^ 2

/-- Ease-out-cubic curve from CameraResetAnimator.jsx and App.jsx:
easeOutCubic x = 1 - (1 - x)^3. -/
def easeOutCubic (x : ℚ) : ℚ := 1 - (1 - x) ^ 3

/-- ResetTask is the record stored in resetRef.current by App.jsx
(focusVase, startCameraReset, startTitleToVasesTransition): interpolation
endpoints, elapsed/duration clock, and the early-exit tolerances. -/
structure ResetTask where
  fromPos : Vec3
  toPos : Vec3
  fromTarget : Vec3
  toTarget : Vec3
  elapsed : ℚ
  duration : ℚ
  minProgressForEarlyEnd : ℚ
  posEpsSq : ℚ
  targetEpsSq : ℚ
deriving DecidableEq, Repr

/-- CamState bundles what the CameraResetAnimator useFrame callback touches:
the optional in-flight task (resetRef.current), the live camera position,
the OrbitControls target, and a count of onDone invocations. -/
structure CamState where
  task : Option ResetTask
  camPos : Vec3
  target : Vec3
  doneCount : ℕ
deriving DecidableEq, Repr

/-- Embedding of the useFrame callback of CameraResetAnimator.jsx: advance
elapsed by delta, compute t = min(elapsed/duration, 1), interpolate camera
position and controls target with the eased factor, and when t has reached 1
or the early-exit test passes, snap exactly to the destination, clear the
task and invoke onDone (counted in doneCount). -/
def cameraFrame (delta : ℚ) (s : CamState) : CamState :=
  match s.task with
  | none => s
  | some d =>
    let e := d.elapsed + delta
    let t := min (e / d.duration) 1
    let k := easeOutCubic t
    let p := lerpVectors d.fromPos d.toPos k
    let tg := lerpVectors d.fromTarget d.toTarget k
    if 1 ≤ t ∨ (d.minProgressForEarlyEnd ≤ t ∧
        distanceToSquared p d.toPos ≤ d.posEpsSq ∧
        distanceToSquared tg d.toTarget ≤ d.targetEpsSq) then
      { task := none, camPos := d.toPos, target := d.toTarget,
        doneCount := s.doneCount + 1 }
    else
      { task := some { d with elapsed := e }, camPos := p, target := tg,
        doneCount := s.doneCount }

/-- Squared distance from the lerped point to the destination scales the
original squared distance by (1 - k)^2. -/
theorem distanceToSquared_lerpVectors (a b : Vec3) (k : ℚ) :
    distanceToSquared (lerpVectors a b k) b =
      (1 - k) ^ 2 * distanceToSquared a b := by
  simp only [distanceToSquared, lerpVectors]
  ring

/-- Squared distances are nonnegative. -/
theorem distanceToSquared_nonneg (a b : Vec3) : 0 ≤ distanceToSquared a b := by
  have hx : (0:ℚ) ≤ (a.x - b.x) ^ 2 := sq_nonneg _
  have hy : (0:ℚ) ≤ (a.y - b.y) ^ 2 := sq_nonneg _
  have hz : (0:ℚ) ≤ (a.z - b.z) ^ 2 := sq_nonneg _
  simp only [distanceToSquared]
  linarith

/-- C5: for every camera transition task with positive duration D, on the
first tick where the accumulated elapsed time reaches or exceeds D the task
is cleared, the camera position is set exactly to toPos, the controls target
exactly to toTarget, and the completion callback fires once. -/
theorem cameraFrame_completes_at_duration (s : CamState) (d : ResetTask)
    (delta : ℚ) (htask : s.task = some d) (hdur : 0 < d.duration)
    (hreach : d.duration ≤ d.elapsed + delta) :
    cameraFrame delta s =
      { task := none, camPos := d.toPos, target := d.toTarget,
        doneCount := s.doneCount + 1 } := by
  have h1 : (1:ℚ) ≤ (d.elapsed + delta) / d.duration :=
    (one_le_div hdur).mpr hreach
  have ht : (1:ℚ) ≤ min ((d.elapsed + delta) / d.duration) 1 :=
    le_min h1 le_rfl
  simp only [cameraFrame, htask]
  rw [if_pos (Or.inl ht)]

/-- Concrete sample task used in the camera witnesses. -/
def sampleTask : ResetTask :=
  { fromPos := ⟨0, 0, 0⟩, toPos := ⟨1, 0, 0⟩,
    fromTarget := ⟨0, 0, 0⟩, toTarget := ⟨0, 1, 0⟩,
    elapsed := 0, duration := 1, minProgressForEarlyEnd := 1/2,
    posEpsSq := 1/10, targetEpsSq := 1/10 }

/-- Concrete camera state holding the sample task. -/
def sampleCam : CamState :=
  { task := some sampleTask, camPos := ⟨0, 0, 0⟩, target := ⟨0, 0, 0⟩,
    doneCount := 0 }

/-- Witness for C5: the sample task satisfies the hypotheses with delta = 2,
and the tick completes with the camera snapped exactly to the destination. -/
theorem cameraFrame_completes_at_duration_witness :
    sampleCam.task = some sampleTask ∧ (0:ℚ) < sampleTask.duration ∧
      sampleTask.duration ≤ sampleTask.elapsed + 2 ∧
      cameraFrame 2 sampleCam =
        { task := none, camPos := sampleTask.toPos,
          target := sampleTask.toTarget,
          doneCount := sampleCam.doneCount + 1 } :=
  ⟨rfl, by norm_num [sampleTask], by norm_num [sampleTask],
    cameraFrame_completes_at_duration sampleCam sampleTask 2 rfl
      (by norm_num [sampleTask]) (by norm_num [sampleTask])⟩

/-- C6: if both early-exit tolerances dominate the eased remaining squared
distance at t = minProgressForEarlyEnd, then any tick whose accumulated
elapsed time e satisfies minProgressForEarlyEnd ≤ e / duration while
e < duration completes the task right there: the camera snaps exactly to the
destination and the completion fires strictly before elapsed reaches the
configured duration. -/
theorem cameraFrame_early_exit (s : CamState) (d : ResetTask) (delta : ℚ)
    (htask : s.task = some d) (hdur : 0 < d.duration)
    (hlt : d.elapsed + delta < d.duration)
    (hmp : d.minProgressForEarlyEnd ≤ (d.elapsed + delta) / d.duration)
    (hpos : (1 - d.minProgressForEarlyEnd) ^ 6 *
        distanceToSquared d.fromPos d.toPos ≤ d.posEpsSq)
    (htgt : (1 - d.minProgressForEarlyEnd) ^ 6 *
        distanceToSquared d.fromTarget d.toTarget ≤ d.targetEpsSq) :
    cameraFrame delta s =
      { task := none, camPos := d.toPos, target := d.toTarget,
        doneCount := s.doneCount + 1 } := by
  set e := d.elapsed + delta with he
  have htlt : e / d.duration < 1 := (div_lt_one hdur).mpr hlt
  have htmin : min (e / d.duration) 1 = e / d.duration :=
    min_eq_left htlt.le
  set t := e / d.duration with htdef
  have ht1 : t ≤ 1 := htlt.le
  have hmono : (1 - t) ^ 6 ≤ (1 - d.minProgressForEarlyEnd) ^ 6 := by
    have h0 : (0:ℚ) ≤ 1 - t := by linarith
    have hle : 1 - t ≤ 1 - d.minProgressForEarlyEnd := by linarith
    exact pow_le_pow_left₀ h0 hle 6
  have hk : (1 - easeOutCubic t) ^ 2 = (1 - t) ^ 6 := by
    simp only [easeOutCubic]
    ring
  have key : ∀ a b eps : _, (1 - d.minProgressForEarlyEnd) ^ 6 *
      distanceToSquared a b ≤ eps →
      distanceToSquared (lerpVectors a b (easeOutCubic t)) b ≤ eps := by
    intro a b eps hbound
    have hS : 0 ≤ distanceToSquared a b := distanceToSquared_nonneg a b
    have h6 : (1 - t) ^ 6 * distanceToSquared a b ≤
        (1 - d.minProgressForEarlyEnd) ^ 6 * distanceToSquared a b :=
      mul_le_mul_of_nonneg_right hmono hS
    calc distanceToSquared (lerpVectors a b (easeOutCubic t)) b
        = (1 - easeOutCubic t) ^ 2 * distanceToSquared a b :=
          distanceToSquared_lerpVectors a b (easeOutCubic t)
      _ = (1 - t) ^ 6 * distanceToSquared a b := by rw [hk]
      _ ≤ (1 - d.minProgressForEarlyEnd) ^ 6 * distanceToSquared a b := h6
      _ ≤ eps := hbound
  have hcond : d.minProgressForEarlyEnd ≤ min (e / d.duration) 1 ∧
      distanceToSquared
        (lerpVectors d.fromPos d.toPos (easeOutCubic (min (e / d.duration) 1)))
        d.toPos ≤ d.posEpsSq ∧
      distanceToSquared
        (lerpVectors d.fromTarget d.toTarget
          (easeOutCubic (min (e / d.duration) 1))) d.toTarget ≤
        d.targetEpsSq := by
    rw [htmin]
    exact ⟨hmp, key d.fromPos d.toPos d.posEpsSq hpos,
      key d.fromTarget d.toTarget d.targetEpsSq htgt⟩
  simp only [cameraFrame, htask]
  rw [if_pos (Or.inr hcond)]

/-- Witness for C6: with the sample task, a tick of delta = 1/2 satisfies
every hypothesis (the tolerances 1/10 dominate the remaining squared
distance (1/2)^6 = 1/64 at the half-way point) and the task completes with
elapsed 1/2, strictly below the duration 1. -/
theorem cameraFrame_early_exit_witness :
    sampleCam.task = some sampleTask ∧ (0:ℚ) < sampleTask.duration ∧
      sampleTask.elapsed + 1/2 < sampleTask.duration ∧
      sampleTask.minProgressForEarlyEnd ≤
        (sampleTask.elapsed + 1/2) / sampleTask.duration ∧
      (1 - sampleTask.minProgressForEarlyEnd) ^ 6 *
          distanceToSquared sampleTask.fromPos sampleTask.toPos ≤
        sampleTask.posEpsSq ∧
      (1 - sampleTask.minProgressForEarlyEnd) ^ 6 *
          distanceToSquared sampleTask.fromTarget sampleTask.toTarget ≤
        sampleTask.targetEpsSq ∧
      cameraFrame (1/2) sampleCam =
        { task := none, camPos := sampleTask.toPos,
          target := sampleTask.toTarget,
          doneCount := sampleCam.doneCount + 1 } :=
  ⟨rfl, by norm_num [sampleTask], by norm_num [sampleTask],
    by norm_num [sampleTask],
    by norm_num [sampleTask, distanceToSquared],
    by norm_num [sampleTask, distanceToSquared],
    cameraFrame_early_exit sampleCam sampleTask (1/2) rfl
      (by norm_num [sampleTask]) (by norm_num [sampleTask])
      (by norm_num [sampleTask])
      (by norm_num [sampleTask, distanceToSquared])
      (by norm_num [sampleTask, distanceToSquared])⟩

/-- Transform is a local transform triple of a shard mesh: position,
orientation (Euler angles, the synced representation that the per-frame
integration in part_003 mutates), and scale. -/
structure Transform where
  pos : Vec3
  rot : Vec3
  scl : Vec3
deriving DecidableEq, Repr

/-- ShardGeom is the immutable geometric datum of one shard mesh: its stable
handle and the world-space center of its geometry bounding box at rest pose
(the embedding of geometry.boundingBox.getCenter transformed by matrixWorld,
taken after the rest-pose restore that part_003 performs first). -/
structure ShardGeom where
  id : ℕ
  restCenter : Vec3
deriving DecidableEq, Repr

/-- ShardsInstance is the loaded shards scene: the shard meshes and the
world-space center of the bounding box of the whole instance at rest pose
(the embedding of Box3.setFromObject(shardsInstance).getCenter, computed
after the rest-pose restore). -/
structure ShardsInstance where
  shards : List ShardGeom
  bboxCenter : Vec3
deriving DecidableEq, Repr

/-- RngDraws packages the Math.random draws one shard can consume during
impulse computation: the fallback direction components rng(-1,1), rng(0,1),
rng(-1,1), the strength jitter rng(0, randJitter), and the angular velocity
components rng(-6,6), rng(-10,10), rng(-6,6). -/
structure RngDraws where
  dirX : ℚ
  dirY : ℚ
  dirZ : ℚ
  jitter : ℚ
  avX : ℚ
  avY : ℚ
  avZ : ℚ
deriving DecidableEq, Repr

/-- ShatterConfig mirrors the VaseModel props consumed by the shatter-init
effect: the optional distance-shaping triple (with defaults applied via the
JavaScript ?? operator), the world-space blast center offset, and the
completion duration in milliseconds. -/
structure ShatterConfig where
  distBias : Option ℚ
  distScale : Option ℚ
  distClamp : Option ℚ
  centerOffset : Vec3
  shatterDurationMs : ℚ
deriving DecidableEq, Repr

/-- Tunable from part_003 line 250: overall impulse magnitude. -/
def baseStrength : ℚ := 10

/-- Tunable from part_003 line 251: random variation added to base strength. -/
def randJitter : ℚ := 10

/-- Tunable from part_003 line 252: extra upward kick as a fraction of
strength (0.55). -/
def upBias : ℚ := 11/20

/-- Effective distance bias: distBias ?? 10. -/
def effBias (c : ShatterConfig) : ℚ := c.distBias.getD 10

/-- Effective distance scale: distScale ?? 0.15. -/
def effScale (c : ShatterConfig) : ℚ := c.distScale.getD (3/20)

/-- Effective distance clamp: distClamp ?? 0.5. -/
def effClamp (c : ShatterConfig) : ℚ := c.distClamp.getD (1/2)

/-- Distance boost from part_003 lines 283 to 285:
1 + min(max((dist + bias) * scale, 0), clampMax). -/
def distBoostOf (bias scaleFactor clampMax dist : ℚ) : ℚ :=
  1 + min (max ((dist + bias) * scaleFactor) 0) clampMax

/-- Scalar impulse strength from part_003 line 286:
(baseStrength + jitterDraw) * distBoost. -/
def shardStrength (bias scaleFactor clampMax dist jitterDraw : ℚ) : ℚ :=
  (baseStrength + jitterDraw) * distBoostOf bias scaleFactor clampMax dist

/-- Embedding of THREE.Vector3.normalize, which divides by (length || 1);
the Euclidean length is supplied by the oracle len. -/
def normalizeWith (len : Vec3 → ℚ) (v : Vec3) : Vec3 :=
  let l := len v
  let d := if l = 0 then 1 else l
  ⟨v.x / d, v.y / d, v.z / d⟩

/-- Per-shard initial linear velocity from part_003 lines 269 to 289: the
direction from the blast center to the shard center (randomized when the
distance is below 1e-5), normalized, scaled by the jittered and
distance-boosted strength, with the upward bias added to the y component.
The argument delta is shardCenterWorld - centerWorld and len is the
Euclidean-length oracle. -/
def shardVelocity (c : ShatterConfig) (len : Vec3 → ℚ) (delta : Vec3)
    (dr : RngDraws) : Vec3 :=
  let dist := len delta
  let dirRaw := if dist < 1/100000 then Vec3.mk dr.dirX dr.dirY dr.dirZ
    else delta
  let dir := normalizeWith len dirRaw
  let strength := shardStrength (effBias c) (effScale c) (effClamp c) dist
    dr.jitter
  ⟨dir.x * strength, dir.y * strength + strength * upBias, dir.z * strength⟩

/-- Per-shard initial angular velocity from part_003 line 291: a uniform
random vector, decoupled from the linear impulse. -/
def shardAngular (dr : RngDraws) : Vec3 := ⟨dr.avX, dr.avY, dr.avZ⟩

/-- VaseState bundles the mutable cells of the VaseModel component that the
shatter engine owns: the optional loaded shards instance, the captured rest
poses (shardsInitialRef), the current mesh transforms, the velocity map
(shardsVelRef), the active flag (shardsActiveRef), the elapsed-seconds
accumulator (shardsElapsedRef), the pending completion timer handle
(shatterTimeoutRef) with a fresh-handle counter, the last processed trigger
(lastProcessedTriggerRef), and a count of onShatterComplete invocations. -/
structure VaseState where
  inst : Option ShardsInstance
  restPoses : List (ℕ × Transform)
  meshes : List (ℕ × Transform)
  vels : List (ℕ × Vec3 × Vec3)
  active : Bool
  elapsed : ℚ
  timeout : Option ℕ
  nextTimerId : ℕ
  lastProcessedTrigger : Option ℕ
  completions : ℕ
deriving DecidableEq, Repr

/-- Rest-pose restore loop from part_003 lines 212 to 217: every mesh whose
handle has a captured rest pose is set back to that pose; meshes without an
entry keep their transform. -/
def restoreRestPoses (rest : List (ℕ × Transform)) :
    List (ℕ × Transform) → List (ℕ × Transform)
  | [] => []
  | (k, tr) :: tl => (k, (rest.lookup k).getD tr) :: restoreRestPoses rest tl

/-- Embedding of the shatter-init effect of part_003 lines 200 to 302
(startSequence).  Guards: a no-op unless shattered and the shards instance
is loaded, and a no-op when the trigger id was already processed.  Otherwise
it records the trigger, cancels any pending completion timer, restores every
rest pose, computes fresh per-shard impulses from the blast center
(instance bounding-box center plus the configured offset), resets the
elapsed clock, marks the simulation active and schedules a fresh completion
timer. -/
def shatterInit (c : ShatterConfig) (shattered : Bool) (trig : ℕ)
    (draws : ℕ → RngDraws) (len : Vec3 → ℚ) (s : VaseState) : VaseState :=
  match shattered, s.inst with
  | false, _ => s
  | true, none => s
  | true, some inst =>
    if s.lastProcessedTrigger = some trig then s
    else
      let centerWorld := vadd inst.bboxCenter c.centerOffset
      { s with
        lastProcessedTrigger := some trig,
        meshes := restoreRestPoses s.restPoses s.meshes,
        vels := inst.shards.map (fun sh =>
          (sh.id,
            shardVelocity c len (vsub sh.restCenter centerWorld)
              (draws sh.id),
            shardAngular (draws sh.id))),
        elapsed := 0,
        active := true,
        timeout := some s.nextTimerId,
        nextTimerId := s.nextTimerId + 1 }

/-- Embedding of the completion timeout body of part_003 lines 298 to 301:
when the pending timer with handle tid fires, the engine clears the active
flag and invokes onShatterComplete; a cleared or superseded handle does
nothing.  The fired handle stops being pending. -/
def fireShatterTimeout (tid : ℕ) (s : VaseState) : VaseState :=
  if s.timeout = some tid then
    { s with
      active := false,
      timeout := none,
      completions := s.completions + 1 }
  else s

/-- Gravity constant from part_003 line 387. -/
def gAccel : ℚ := 19/5

/-- Seconds before gravity starts, part_003 line 389. -/
def gravityDelay : ℚ := 1/10

/-- Seconds with no damping, part_003 line 388. -/
def blastNoDampFor : ℚ := 2/25

/-- Linear damping factor per frame, part_003 line 390. -/
def linDamp : ℚ := 197/200

/-- Angular damping factor per frame, part_003 line 391. -/
def angDamp : ℚ := 9/100

/-- Componentwise scaling, as in THREE.Vector3.multiplyScalar. -/
def dampVec (f : ℚ) (v : Vec3) : Vec3 := ⟨v.x * f, v.y * f, v.z * f⟩

/-- Embedding of the shattered branch of the useFrame callback of part_003
lines 379 to 412: while the simulation is active, accumulate elapsed time,
apply gravity to each velocity after the gravity delay, integrate position
and rotation with the shared delta, and damp linear and angular velocities
after the no-damp window. -/
def shatterFrame (shattered : Bool) (delta : ℚ) (s : VaseState) : VaseState :=
  match shattered, s.inst with
  | false, _ => s
  | true, none => s
  | true, some _ =>
    if s.active = false then s
    else
      let e2 := s.elapsed + delta
      let doG := gravityDelay < e2
      let doD := blastNoDampFor < e2
      let newVels := s.vels.map (fun it =>
        let v1 : Vec3 := if doG then ⟨it.2.1.x, it.2.1.y - gAccel * delta,
          it.2.1.z⟩ else it.2.1
        let v2 : Vec3 := if doD then dampVec linDamp v1 else v1
        let av2 : Vec3 := if doD then dampVec angDamp it.2.2 else it.2.2
        (it.1, v2, av2))
      let newMeshes := s.meshes.map (fun it =>
        match s.vels.lookup it.1 with
        | none => it
        | some va =>
          let v1 : Vec3 := if doG then ⟨va.1.x, va.1.y - gAccel * delta,
            va.1.z⟩ else va.1
          (it.1,
            { it.2 with
              pos := ⟨it.2.pos.x + v1.x * delta, it.2.pos.y + v1.y * delta,
                it.2.pos.z + v1.z * delta⟩,
              rot := ⟨it.2.rot.x + va.2.x * delta,
                it.2.rot.y + va.2.y * delta,
                it.2.rot.z + va.2.z * delta⟩ }))
      { s with elapsed := e2, vels := newVels, meshes := newMeshes }

/-- Lookup after the rest-pose restore: a mesh keeps its key and takes its
rest pose when one was captured. -/
theorem lookup_restoreRestPoses (rest ms : List (ℕ × Transform)) (i : ℕ) :
    (restoreRestPoses rest ms).lookup i =
      (ms.lookup i).map (fun tr => (rest.lookup i).getD tr) := by
  induction ms with
  | nil => rfl
  | cons hd tl ih =>
    obtain ⟨k, v⟩ := hd
    by_cases h : i = k
    · subst h
      simp [restoreRestPoses, List.lookup]
    · have hbeq : (i == k) = false := by simp [h]
      simp only [restoreRestPoses, List.lookup, hbeq]
      exact ih

/-- C2: startSequence is idempotent per trigger token: when the engine is
already active and the incoming trigger id equals the last processed one,
the init effect changes nothing at all: transforms, velocities, elapsed
clock and the pending completion timer are all untouched, for any random
draws and any length oracle. -/
theorem shatterInit_idempotent_same_trigger (c : ShatterConfig) (trig : ℕ)
    (draws : ℕ → RngDraws) (len : Vec3 → ℚ) (s : VaseState)
    (inst : ShardsInstance) (hinst : s.inst = some inst)
    (hactive : s.active = true)
    (hlast : s.lastProcessedTrigger = some trig) :
    shatterInit c true trig draws len s = s := by
  simp [shatterInit, hinst, hlast]

/-- Concrete rest pose used by the shatter witnesses. -/
def sampleRest : Transform :=
  { pos := ⟨0, 0, 0⟩, rot := ⟨0, 0, 0⟩, scl := ⟨1, 1, 1⟩ }

/-- Concrete displaced transform used by the shatter witnesses. -/
def sampleMoved : Transform :=
  { pos := ⟨3, 4, 5⟩, rot := ⟨1, 0, 0⟩, scl := ⟨1, 1, 1⟩ }

/-- Concrete one-shard instance used by the shatter witnesses. -/
def sampleInstance : ShardsInstance :=
  { shards := [⟨0, ⟨0, 1, 0⟩⟩], bboxCenter := ⟨0, 0, 0⟩ }

/-- Default prop values of the VaseModel component: no distance-shaping
overrides, zero center offset, five-second completion. -/
def defaultConfig : ShatterConfig :=
  { distBias := none,
    distScale := none,
    distClamp := none,
    centerOffset := ⟨0, 0, 0⟩,
    shatterDurationMs := 5000 }

/-- Length oracle that is exact on axis-aligned vectors. -/
def axisLen (v : Vec3) : ℚ := |v.x| + |v.y| + |v.z|

/-- Random draws that are all zero. -/
def zeroDraws : RngDraws := ⟨0, 0, 0, 0, 0, 0, 0⟩

/-- Concrete mid-sequence engine state used by the shatter witnesses: one
shard displaced from its rest pose, a pending completion timer with handle
0, trigger 5 already processed. -/
def sampleVase : VaseState :=
  { inst := some sampleInstance,
    restPoses := [(0, sampleRest)],
    meshes := [(0, sampleMoved)],
    vels := [],
    active := true,
    elapsed := 2,
    timeout := some 0,
    nextTimerId := 1,
    lastProcessedTrigger := some 5,
    completions := 0 }

/-- Witness for C2: re-invoking the init effect on the sample state with the
already processed trigger 5 changes nothing. -/
theorem shatterInit_idempotent_same_trigger_witness :
    sampleVase.inst = some sampleInstance ∧ sampleVase.active = true ∧
      sampleVase.lastProcessedTrigger = some 5 ∧
      shatterInit defaultConfig true 5 (fun _ => zeroDraws) axisLen
        sampleVase = sampleVase :=
  ⟨rfl, rfl, rfl,
    shatterInit_idempotent_same_trigger defaultConfig 5 (fun _ => zeroDraws)
      axisLen sampleVase sampleInstance rfl rfl rfl⟩

/-- C3: starting a sequence with a new (different) trigger id restores every
fragment that has a captured rest pose to exactly that rest pose: after the
init effect and before any frame tick, the transform stored for the
fragment is the originally captured ShardRestPose, whatever the fragment
position was before and whatever impulses the random draws produce. -/
theorem shatterInit_restores_rest_pose (c : ShatterConfig) (trig : ℕ)
    (draws : ℕ → RngDraws) (len : Vec3 → ℚ) (s : VaseState)
    (inst : ShardsInstance) (i : ℕ) (tr0 pose : Transform)
    (hinst : s.inst = some inst)
    (hnew : s.lastProcessedTrigger ≠ some trig)
    (hmesh : s.meshes.lookup i = some tr0)
    (hrest : s.restPoses.lookup i = some pose) :
    (shatterInit c true trig draws len s).meshes.lookup i = some pose := by
  simp only [shatterInit, hinst]
  rw [if_neg hnew]
  rw [lookup_restoreRestPoses]
  simp [hmesh, hrest]

/-- Witness for C3: restarting the sample state with fresh trigger 6 puts
the displaced shard 0 back at its captured rest pose. -/
theorem shatterInit_restores_rest_pose_witness :
    sampleVase.inst = some sampleInstance ∧
      sampleVase.lastProcessedTrigger ≠ some 6 ∧
      sampleVase.meshes.lookup 0 = some sampleMoved ∧
      sampleVase.restPoses.lookup 0 = some sampleRest ∧
      (shatterInit defaultConfig true 6 (fun _ => zeroDraws) axisLen
        sampleVase).meshes.lookup 0 = some sampleRest :=
  ⟨rfl, by decide, rfl, rfl,
    shatterInit_restores_rest_pose defaultConfig 6 (fun _ => zeroDraws)
      axisLen sampleVase sampleInstance 0 sampleMoved sampleRest rfl
      (by decide) rfl rfl⟩

/-- C7: when the shards instance is not yet loaded, the init effect is a
complete no-op: the state is returned unchanged, so no velocities are
allocated, no completion timer is scheduled, the elapsed clock is untouched
and the trigger token is not recorded as processed. -/
theorem shatterInit_noop_without_instance (c : ShatterConfig)
    (shattered : Bool) (trig : ℕ) (draws : ℕ → RngDraws) (len : Vec3 → ℚ)
    (s : VaseState) (h : s.inst = none) :
    shatterInit c shattered trig draws len s = s := by
  cases shattered <;> simp [shatterInit, h]

/-- Concrete engine state with no shards instance loaded. -/
def unloadedVase : VaseState :=
  { inst := none, restPoses := [], meshes := [], vels := [], active := false,
    elapsed := 0, timeout := none, nextTimerId := 0,
    lastProcessedTrigger := none, completions := 0 }

/-- Witness for C7: triggering the init effect before the shards are loaded
leaves the state untouched, trigger token included. -/
theorem shatterInit_noop_without_instance_witness :
    unloadedVase.inst = none ∧
      shatterInit defaultConfig true 3 (fun _ => zeroDraws) axisLen
        unloadedVase = unloadedVase :=
  ⟨rfl, shatterInit_noop_without_instance defaultConfig true 3
    (fun _ => zeroDraws) axisLen unloadedVase rfl⟩

/-- C8: restarting with a different trigger id while a completion timer is
pending replaces the pending handle with a fresh one: after the init effect
the pending timer is the freshly allocated handle, which differs from the
superseded one, and firing the superseded handle afterwards is a no-op, so
a stale completion callback never fires. -/
theorem shatterInit_cancels_pending_timer (c : ShatterConfig) (trig : ℕ)
    (draws : ℕ → RngDraws) (len : Vec3 → ℚ) (s : VaseState)
    (inst : ShardsInstance) (tid : ℕ) (hinst : s.inst = some inst)
    (hnew : s.lastProcessedTrigger ≠ some trig)
    (hpend : s.timeout = some tid) (hfresh : tid < s.nextTimerId) :
    (shatterInit c true trig draws len s).timeout = some s.nextTimerId ∧
      s.nextTimerId ≠ tid ∧
      fireShatterTimeout tid (shatterInit c true trig draws len s) =
        shatterInit c true trig draws len s := by
  have hne : s.nextTimerId ≠ tid := fun h => absurd (h ▸ hfresh) (lt_irrefl _)
  have h1 : (shatterInit c true trig draws len s).timeout =
      some s.nextTimerId := by
    simp only [shatterInit, hinst]
    rw [if_neg hnew]
  refine ⟨h1, hne, ?_⟩
  have : (shatterInit c true trig draws len s).timeout ≠ some tid := by
    rw [h1]
    simp [hne]
  simp [fireShatterTimeout, this]

/-- Witness for C8: restarting the sample state (pending handle 0, fresh
counter 1) with trigger 6 schedules handle 1, and firing the stale handle 0
afterwards changes nothing. -/
theorem shatterInit_cancels_pending_timer_witness :
    sampleVase.inst = some sampleInstance ∧
      sampleVase.lastProcessedTrigger ≠ some 6 ∧
      sampleVase.timeout = some 0 ∧ 0 < sampleVase.nextTimerId ∧
      ((shatterInit defaultConfig true 6 (fun _ => zeroDraws) axisLen
          sampleVase).timeout = some sampleVase.nextTimerId ∧
        sampleVase.nextTimerId ≠ 0 ∧
        fireShatterTimeout 0 (shatterInit defaultConfig true 6
            (fun _ => zeroDraws) axisLen sampleVase) =
          shatterInit defaultConfig true 6 (fun _ => zeroDraws) axisLen
            sampleVase) :=
  ⟨rfl, by decide, rfl, by decide,
    shatterInit_cancels_pending_timer defaultConfig 6 (fun _ => zeroDraws)
      axisLen sampleVase sampleInstance 0 rfl (by decide) rfl (by decide)⟩

/-- C10: when the pending completion timer fires, the engine only clears the
active flag, drops the fired handle and invokes the completion callback;
mesh transforms, velocities, rest poses, the elapsed clock and the trigger
token are all left exactly as the last frame tick put them, with no restore
to rest pose. -/
theorem fireShatterTimeout_only_deactivates (s : VaseState) (tid : ℕ)
    (hpend : s.timeout = some tid) :
    fireShatterTimeout tid s =
      { s with
        active := false,
        timeout := none,
        completions := s.completions + 1 } := by
  simp [fireShatterTimeout, hpend]

/-- Witness for C10: firing the pending handle 0 on the sample state only
flips the active flag, clears the handle and counts one completion; the
displaced mesh transform stays displaced. -/
theorem fireShatterTimeout_only_deactivates_witness :
    sampleVase.timeout = some 0 ∧
      fireShatterTimeout 0 sampleVase =
        { sampleVase with
          active := false,
          timeout := none,
          completions := sampleVase.completions + 1 } :=
  ⟨rfl, fireShatterTimeout_only_deactivates sampleVase 0 rfl⟩

/-- Nearby shard displacement used by the C4 counterexample: one unit above
the blast center. -/
def deltaNear : Vec3 := ⟨0, 1, 0⟩

/-- Far shard displacement used by the C4 counterexample: two units below
the blast center. -/
def deltaFar : Vec3 := ⟨0, -2, 0⟩

/-- C4 counterexample: with the default tunables, identical (zero) random
draws and the exact length oracle on the two axis-aligned displacements,
the shard two units below the blast center receives a strictly smaller
velocity magnitude than the shard one unit above it, because the upward
bias adds to an upward impulse and cancels against a downward one.  Squared
magnitudes are compared, which is equivalent for nonnegative lengths.
This falsifies monotone non-decreasing magnitude in distance. -/
theorem shardVelocity_magnitude_not_monotone :
    axisLen deltaNear ^ 2 = vlen2 deltaNear ∧
      axisLen deltaFar ^ 2 = vlen2 deltaFar ∧
      axisLen deltaNear < axisLen deltaFar ∧
      vlen2 (shardVelocity defaultConfig axisLen deltaFar zeroDraws) <
        vlen2 (shardVelocity defaultConfig axisLen deltaNear zeroDraws) := by
  refine ⟨by norm_num [axisLen, vlen2, deltaNear], ?_, ?_, ?_⟩
  · norm_num [axisLen, vlen2, deltaFar]
  · norm_num [axisLen, deltaNear, deltaFar]
  · norm_num [shardVelocity, normalizeWith, shardStrength, distBoostOf,
      effBias, effScale, effClamp, baseStrength, upBias, axisLen, vlen2,
      deltaNear, deltaFar, defaultConfig, zeroDraws, min_def, max_def]

/-- C4 amended: what is monotone in the fragment distance is the scalar
impulse strength for equal jitter draws: with a nonnegative distance scale
and a nonnegative jitter draw, the strength is monotonically non-decreasing
in the distance and bounded by (baseStrength + jitter) times (1 + clamp). -/
theorem shardStrength_monotone_bounded (bias scaleFactor clampMax j d1 d2 : ℚ)
    (hs : 0 ≤ scaleFactor) (hj : 0 ≤ j) (h12 : d1 ≤ d2) :
    shardStrength bias scaleFactor clampMax d1 j ≤
      shardStrength bias scaleFactor clampMax d2 j ∧
      shardStrength bias scaleFactor clampMax d1 j ≤
        (baseStrength + j) * (1 + clampMax) := by
  have hbase : (0:ℚ) ≤ baseStrength + j := by
    simp only [baseStrength]
    linarith
  have hboost : distBoostOf bias scaleFactor clampMax d1 ≤
      distBoostOf bias scaleFactor clampMax d2 := by
    have h1 : (d1 + bias) * scaleFactor ≤ (d2 + bias) * scaleFactor :=
      mul_le_mul_of_nonneg_right (by linarith) hs
    have h2 : max ((d1 + bias) * scaleFactor) 0 ≤
        max ((d2 + bias) * scaleFactor) 0 := max_le_max h1 le_rfl
    have h3 : min (max ((d1 + bias) * scaleFactor) 0) clampMax ≤
        min (max ((d2 + bias) * scaleFactor) 0) clampMax :=
      min_le_min h2 le_rfl
    simp only [distBoostOf]
    linarith
  have hbound : distBoostOf bias scaleFactor clampMax d1 ≤ 1 + clampMax := by
    have := min_le_right (max ((d1 + bias) * scaleFactor) 0) clampMax
    simp only [distBoostOf]
    linarith
  constructor
  · simp only [shardStrength]
    exact mul_le_mul_of_nonneg_left hboost hbase
  · simp only [shardStrength]
    exact mul_le_mul_of_nonneg_left hbound hbase

/-- Witness for the amended C4: with the default shaping triple, jitter 1
and distances 1 and 2 the strength is monotone and bounded. -/
theorem shardStrength_monotone_bounded_witness :
    (0:ℚ) ≤ 3/20 ∧ (0:ℚ) ≤ 1 ∧ (1:ℚ) ≤ 2 ∧
      (shardStrength 10 (3/20) (1/2) 1 1 ≤ shardStrength 10 (3/20) (1/2) 2 1 ∧
        shardStrength 10 (3/20) (1/2) 1 1 ≤ (baseStrength + 1) * (1 + 1/2)) :=
  ⟨by norm_num, by norm_num, by norm_num,
    shardStrength_monotone_bounded 10 (3/20) (1/2) 1 1 2 (by norm_num)
      (by norm_num) (by norm_num)⟩

/-- DragMode enumerates the non-null draggingMode values of App.jsx. -/
inductive DragMode
  | vase
  | camera
deriving DecidableEq, Repr

/-- AppAction enumerates the activeAction values the coordinator effects
consume. -/
inductive AppAction
  | destroy
  | manifest
deriving DecidableEq, Repr

/-- AppState bundles the coordinator state of App.jsx: whether appMode is
vases, the destroy lock, the destroying vase index and monotonically
increasing destroy trigger id, the focused vase, the pending action, the
dragging mode, the camera-reset flag, the in-flight destroy guard set
(destroyingVasesRef) and the per-vase sensor windows.  Persistence side
effects (coin lists, destroy counters) are external collaborators and are
elided. -/
structure AppState where
  appVases : Bool
  isLocked : Bool
  destroyingIndex : Option ℕ
  destroyEventId : ℕ
  activeVaseIndex : ℕ
  activeAction : Option AppAction
  draggingMode : Option DragMode
  isResetting : Bool
  destroyingVases : List ℕ
  sensorWindows : List Bool
deriving DecidableEq, Repr

/-- Embedding of handleTriggerDestroy (App.jsx lines 635 to 638): outside
vases mode, while locked or while resetting it does nothing; otherwise it
requests the destroy action. -/
def handleTriggerDestroy (s : AppState) : AppState :=
  if s.appVases = false ∨ s.isLocked = true ∨ s.isResetting = true then s
  else { s with activeAction := some AppAction.destroy }

/-- Embedding of the destroy-trigger effect (App.jsx lines 354 to 384):
consumes the destroy action; while locked or while any vase is destroying
it only clears the action; the per-vase guard set blocks duplicate starts;
otherwise it locks, records the destroying vase, bumps the trigger id and
opens the sensor window.  The sensor timer bookkeeping is mirrored by the
sensorWindows flags. -/
def destroyActionEffect (s : AppState) : AppState :=
  if s.activeAction ≠ some AppAction.destroy then s
  else if s.isLocked = true ∨ s.destroyingIndex ≠ none then
    { s with activeAction := none }
  else if s.activeVaseIndex ∈ s.destroyingVases then
    { s with activeAction := none }
  else
    { s with
      destroyingVases := s.activeVaseIndex :: s.destroyingVases,
      isLocked := true,
      destroyingIndex := some s.activeVaseIndex,
      destroyEventId := s.destroyEventId + 1,
      sensorWindows := s.sensorWindows.set s.activeVaseIndex true,
      activeAction := none }

/-- A user destroy request: the button handler followed by the effect that
consumes the requested action. -/
def beginDestroy (s : AppState) : AppState :=
  destroyActionEffect (handleTriggerDestroy s)

/-- Embedding of the onShatterComplete callback (App.jsx lines 881 to 913):
only when the completing vase is the destroying one, clear the destroying
index, release the lock and drop the vase from the in-flight guard set. -/
def onShatterCompleteApp (i : ℕ) (s : AppState) : AppState :=
  if s.destroyingIndex = some i then
    { s with
      destroyingIndex := none,
      isLocked := false,
      destroyingVases := s.destroyingVases.erase i }
  else s

/-- Embedding of handleVasePointerDown (App.jsx lines 424 to 428). -/
def handleVasePointerDown (s : AppState) : AppState :=
  if s.isResetting = true ∨ s.isLocked = true ∨ s.appVases = false then s
  else { s with draggingMode := some DragMode.vase }

/-- Embedding of the OrbitControls enable gating effect (App.jsx lines 463
to 478): controls accept a drag only when neither resetting nor locked and
the vase is not being dragged. -/
def controlsEnabled (s : AppState) : Bool :=
  !s.isResetting && !s.isLocked && !(s.draggingMode == some DragMode.vase)

/-- A camera-drag attempt: the OrbitControls onStart handler sets
draggingMode to camera, and fires only while the controls are enabled. -/
def beginCameraDrag (s : AppState) : AppState :=
  if controlsEnabled s = true then
    { s with draggingMode := some DragMode.camera }
  else s

/-- Embedding of the global pointerup handler (App.jsx lines 410 to 422). -/
def globalPointerUp (s : AppState) : AppState :=
  if s.isLocked = true ∨ s.appVases = false then s
  else if s.draggingMode = some DragMode.camera ∨
      s.draggingMode = some DragMode.vase then
    { s with draggingMode := none }
  else s

/-- Embedding of startCameraReset (App.jsx lines 206 to 225) at coordinator
level: the interpolation task itself is modelled by ResetTask above. -/
def startCameraReset (s : AppState) : AppState := { s with isResetting := true }

/-- Embedding of the pointercancel, blur and visibility-hidden handler
(App.jsx lines 431 to 449). -/
def pointerCancelOrBlur (s : AppState) : AppState :=
  if s.isLocked = true ∨ s.appVases = false then s
  else if s.draggingMode = some DragMode.camera then startCameraReset s
  else if s.draggingMode = some DragMode.vase then
    { s with draggingMode := none }
  else s

/-- Embedding of the CameraResetAnimator onDone callback (App.jsx lines 973
to 982). -/
def cameraResetDone (s : AppState) : AppState :=
  { s with isResetting := false, draggingMode := none }

/-- Embedding of setAppMode moving from the title screen to the vases
scene (App.jsx lines 1028 to 1031). -/
def enterVasesMode (s : AppState) : AppState := { s with appVases := true }

/-- Embedding of focusVase (App.jsx lines 117 to 144) at coordinator level:
wrap the index over the nine vases; when it changes, move focus, start the
camera transition and clear the dragging mode. -/
def focusVase (j : ℕ) (s : AppState) : AppState :=
  let wrapped := j % 9
  if wrapped = s.activeVaseIndex then s
  else
    { s with
      activeVaseIndex := wrapped,
      isResetting := true,
      draggingMode := none }

/-- Embedding of the sensor-window close timer (App.jsx lines 378 to 381). -/
def sensorWindowClose (i : ℕ) (s : AppState) : AppState :=
  { s with sensorWindows := s.sensorWindows.set i false }

/-- AppStep is one coordinator transition: any of the embedded handlers,
effects and callbacks may fire. -/
inductive AppStep : AppState → AppState → Prop
  | triggerDestroy (s : AppState) : AppStep s (handleTriggerDestroy s)
  | destroyAction (s : AppState) : AppStep s (destroyActionEffect s)
  | complete (i : ℕ) (s : AppState) : AppStep s (onShatterCompleteApp i s)
  | vaseDown (s : AppState) : AppStep s (handleVasePointerDown s)
  | camDrag (s : AppState) : AppStep s (beginCameraDrag s)
  | pointerUp (s : AppState) : AppStep s (globalPointerUp s)
  | cancelOrBlur (s : AppState) : AppStep s (pointerCancelOrBlur s)
  | camReset (s : AppState) : AppStep s (startCameraReset s)
  | resetDone (s : AppState) : AppStep s (cameraResetDone s)
  | enterVases (s : AppState) : AppStep s (enterVasesMode s)
  | nav (j : ℕ) (s : AppState) : AppStep s (focusVase j s)
  | sensorClose (i : ℕ) (s : AppState) : AppStep s (sensorWindowClose i s)

/-- Initial coordinator state: title screen, nothing locked, nothing
destroying, no drag, no pending action, all sensor windows closed. -/
def initialAppState : AppState :=
  { appVases := false,
    isLocked := false,
    destroyingIndex := none,
    destroyEventId := 0,
    activeVaseIndex := 0,
    activeAction := none,
    draggingMode := none,
    isResetting := false,
    destroyingVases := [],
    sensorWindows := List.replicate 9 false }

/-- Reachability of coordinator states from the initial state. -/
def ReachableApp (s : AppState) : Prop :=
  Relation.ReflTransGen AppStep initialAppState s

/-- Every coordinator transition preserves the lock invariant: the lock is
set exactly when some vase is destroying. -/
theorem appStep_preserves_lock_iff {s s2 : AppState} (h : AppStep s s2)
    (ih : s.isLocked = true ↔ s.destroyingIndex ≠ none) :
    s2.isLocked = true ↔ s2.destroyingIndex ≠ none := by
  cases h <;>
    simp only [handleTriggerDestroy, destroyActionEffect, onShatterCompleteApp,
      handleVasePointerDown, beginCameraDrag, globalPointerUp,
      pointerCancelOrBlur, startCameraReset, cameraResetDone, enterVasesMode,
      focusVase, sensorWindowClose] <;>
    first
      | (split_ifs <;> simp_all)
      | exact ih

/-- C9: in every reachable coordinator state, isLocked is true exactly when
the active destroy target id is non-null; and while isLocked is true, an
attempted camera drag or vase drag leaves draggingMode unchanged, so at
most one exclusive interaction mode is active at a time. -/
theorem reachable_lock_invariant (s : AppState) (h : ReachableApp s) :
    (s.isLocked = true ↔ s.destroyingIndex ≠ none) ∧
      (s.isLocked = true →
        (beginCameraDrag s).draggingMode = s.draggingMode ∧
        (handleVasePointerDown s).draggingMode = s.draggingMode) := by
  have hiff : s.isLocked = true ↔ s.destroyingIndex ≠ none := by
    induction h with
    | refl => simp [initialAppState]
    | tail _ hstep ih => exact appStep_preserves_lock_iff hstep ih
  refine ⟨hiff, fun hlock => ⟨?_, ?_⟩⟩
  · simp [beginCameraDrag, controlsEnabled, hlock]
  · simp [handleVasePointerDown, hlock]

/-- Coordinator state on the vases screen, quiescent. -/
def vasesState : AppState := enterVasesMode initialAppState

/-- Coordinator state mid-destroy on vase 0, produced by a fresh destroy
request from the quiescent vases screen. -/
def midDestroyState : AppState := beginDestroy vasesState

/-- Witness for C9: the mid-destroy state is reachable by an explicit step
chain, its lock matches its destroying index, and both drag attempts leave
the dragging mode unchanged there. -/
theorem reachable_lock_invariant_witness :
    (midDestroyState.isLocked = true ↔
        midDestroyState.destroyingIndex ≠ none) ∧
      (midDestroyState.isLocked = true →
        (beginCameraDrag midDestroyState).draggingMode =
            midDestroyState.draggingMode ∧
          (handleVasePointerDown midDestroyState).draggingMode =
            midDestroyState.draggingMode) :=
  reachable_lock_invariant midDestroyState
    (Relation.ReflTransGen.tail
      (Relation.ReflTransGen.tail
        (Relation.ReflTransGen.tail Relation.ReflTransGen.refl
          (AppStep.enterVases initialAppState))
        (AppStep.triggerDestroy vasesState))
      (AppStep.destroyAction (handleTriggerDestroy vasesState)))

/-- C1 counterexample: in the reachable state that is mid-destroy on vase 0,
a second beginDestroy for the very same target is a complete no-op: the
state is unchanged and in particular the destroy trigger id is not bumped,
so the shatter sequence is not restarted.  This falsifies the claim that
beginDestroy for the same target mid-destroy re-triggers the sequence:
App.jsx rejects every destroy request while locked. -/
theorem beginDestroy_same_target_no_restart :
    midDestroyState.isLocked = true ∧
      midDestroyState.destroyingIndex = some midDestroyState.activeVaseIndex ∧
      beginDestroy midDestroyState = midDestroyState ∧
      (beginDestroy midDestroyState).destroyEventId ≠
        midDestroyState.destroyEventId + 1 := by
  refine ⟨rfl, rfl, by decide, by decide⟩

/-- C1 amended: beginDestroy while a destroy is in progress is a silent
no-op for every target, the currently destroying one included: with the
action slot quiescent the coordinator state is returned unchanged, so the
sequence is not restarted, the lock remains true throughout, and only the
single already-running sequence can complete. -/
theorem beginDestroy_noop_while_locked (s : AppState)
    (hlock : s.isLocked = true) (hact : s.activeAction = none) :
    beginDestroy s = s ∧ (beginDestroy s).isLocked = true := by
  have h1 : handleTriggerDestroy s = s := by
    simp [handleTriggerDestroy, hlock]
  have h2 : destroyActionEffect s = s := by
    simp [destroyActionEffect, hact]
  constructor
  · simp [beginDestroy, h1, h2]
  · simp [beginDestroy, h1, h2, hlock]

/-- Witness for the amended C1: the mid-destroy state is locked and
quiescent, and a repeated destroy request leaves it unchanged and locked. -/
theorem beginDestroy_noop_while_locked_witness :
    midDestroyState.isLocked = true ∧ midDestroyState.activeAction = none ∧
      (beginDestroy midDestroyState = midDestroyState ∧
        (beginDestroy midDestroyState).isLocked = true) :=
  ⟨rfl, rfl, beginDestroy_noop_while_locked midDestroyState rfl rfl⟩

end ManifestApp
